import Mathlib

/-!
Verification of the pipeline workflow engine of the Fiarrd job-search
tracker (CLI `main.py`, web `web/routes.py`, storage `contact.py` /
`models/activity.py`, configuration `config.py`).

Dates are modelled as integer day numbers; "today" is always an explicit
parameter.  The SQLite store is modelled as explicit lists of rows, and
every stateful operation takes and returns such a state.  The module
`modules/workflow.py` (functions `calculate_next_action`, `advance_stage`,
`get_followup_queue`, `flag_stale_records`) is not present in the source
tree — only its callers, its tests and the spec describe it — so those
four functions are modelled from the spec (each marked as such); all other
definitions are translated directly from the Python source.
-/

/-- A row of the `contacts` table (dataclass `Contact` in `contact.py`),
restricted to the fields the workflow engine reads or writes. -/
structure Contact where
  id : Nat
  opportunity_id : Option Nat
  full_name : String
  contact_type : Option String
  outreach_day0 : Option Int
  outreach_day3 : Option Int
  outreach_day7 : Option Int
  response_status : String
deriving DecidableEq, Repr

/-- A row of the `opportunities` table (fields used by the workflow engine). -/
structure Opportunity where
  id : Nat
  company : String
  role_title : String
  stage : String
  date_applied : Option Int
  date_closed : Option Int
  next_action : Option String
  next_action_date : Option Int
  updated_at : Int
deriving DecidableEq, Repr

/-- A row of the append-only `activity_log` table (dataclass `ActivityLog`
in `models/activity.py`). -/
structure LogEntry where
  activity_type : String
  description : String
  opportunity_id : Option Nat
  contact_id : Option Nat
deriving DecidableEq, Repr

/-- The fixed pipeline vocabulary `STAGE_ORDER` from `config.py`. -/
def STAGE_ORDER : List String :=
  ["Prospect", "Warm Lead", "Applied",
   "Recruiter Screen", "HM Interview",
   "Loop", "Offer Pending", "Closed"]

/-- A single keyword argument accepted by `update_contact` (`contact.py`):
one settable column together with its new value. -/
inductive ContactUpdate where
  | setDay0 (d : Int)
  | setDay3 (d : Int)
  | setDay7 (d : Int)
  | setResponseStatus (s : String)
deriving DecidableEq, Repr

/-- Apply one SET clause to one contact row. -/
def applyUpdate (c : Contact) (u : ContactUpdate) : Contact :=
  match u with
  | .setDay0 d => { c with outreach_day0 := some d }
  | .setDay3 d => { c with outreach_day3 := some d }
  | .setDay7 d => { c with outreach_day7 := some d }
  | .setResponseStatus s => { c with response_status := s }

/-- Apply a list of SET clauses, left to right, to one contact row. -/
def applyUpdates (us : List ContactUpdate) (c : Contact) : Contact :=
  us.foldl applyUpdate c

/-- `get_contact` from `contact.py`: `SELECT * FROM contacts WHERE id = ?`. -/
def get_contact (db : List Contact) (cid : Nat) : Option Contact :=
  db.find? (fun c => c.id == cid)

/-- `update_contact` from `contact.py`: with no keyword arguments it
returns 0 without touching the database; otherwise it runs
`UPDATE contacts SET … WHERE id = ?` and returns the execute result
(modelled as the number of matched rows). -/
def update_contact (db : List Contact) (cid : Nat) (kwargs : List ContactUpdate) :
    Nat × List Contact :=
  if kwargs.isEmpty then (0, db)
  else
    (db.countP (fun c => c.id == cid),
     db.map (fun c => if c.id == cid then applyUpdates kwargs c else c))

/-- One item of the follow-up queue, with the fields the CLI consumer
(`follow_up` in `main.py`) reads. -/
structure FollowupItem where
  contact_id : Nat
  opportunity_id : Option Nat
  full_name : String
  contact_type : Option String
  outreach_day0 : Option Int
  followup_reason : String
deriving DecidableEq, Repr

/-- Modelled from the spec: `modules/workflow.py` is absent from the source
tree, so the per-contact selection rule of `get_followup_queue` (§4.3) is
taken from the spec.  A contact is due iff its `response_status` is
`Pending` and `outreach_day0` is set; then with `days_since = today − day0`
it is a Day-7 follow-up if `days_since ≥ 7` and `outreach_day7` is unset
(regardless of Day 3), else a Day-3 follow-up if `days_since ≥ 3` and
`outreach_day3` is unset, else not due. -/
def followup_item (today : Int) (c : Contact) : Option FollowupItem :=
  if c.response_status = "Pending" then
    match c.outreach_day0 with
    | some d0 =>
      let days_since := today - d0
      if 7 ≤ days_since ∧ c.outreach_day7 = none then
        some { contact_id := c.id, opportunity_id := c.opportunity_id,
               full_name := c.full_name, contact_type := c.contact_type,
               outreach_day0 := some d0, followup_reason := "Day 7 follow-up due" }
      else if 3 ≤ days_since ∧ c.outreach_day3 = none then
        some { contact_id := c.id, opportunity_id := c.opportunity_id,
               full_name := c.full_name, contact_type := c.contact_type,
               outreach_day0 := some d0, followup_reason := "Day 3 follow-up due" }
      else none
    | none => none
  else none

/-- Modelled from the spec: `get_followup_queue` (§4.3) evaluates the
selection rule per contact and returns the due items. -/
def get_followup_queue (today : Int) (cs : List Contact) : List FollowupItem :=
  cs.filterMap (followup_item today)

/-- The contact-side state touched by follow-up resolution: the contacts
table and the append-only activity log. -/
structure CState where
  contacts : List Contact
  logs : List LogEntry
deriving DecidableEq, Repr

/-- The per-item resolution branch of the `follow-up` CLI command
(`follow_up` in `main.py`, lines 329–362): on "sent" it stamps
`outreach_day7` when `days_since ≥ 6` and `outreach_day3` otherwise, then
logs a Follow-Up Sent entry; on "responded" it sets `response_status` and
logs a Response Received entry; on "no-response" it only sets
`response_status`; anything else ("skip") changes nothing. -/
def follow_up_resolve (today : Int) (st : CState) (item : FollowupItem)
    (action : String) : CState :=
  if action = "sent" then
    let days_since := match item.outreach_day0 with
      | some d0 => today - d0
      | none => 0
    if 6 ≤ days_since then
      { contacts := (update_contact st.contacts item.contact_id [.setDay7 today]).2,
        logs := st.logs ++
          [{ activity_type := "Follow-Up Sent",
             description := "Day 7" ++ " follow-up sent to " ++ item.full_name,
             opportunity_id := item.opportunity_id,
             contact_id := some item.contact_id }] }
    else
      { contacts := (update_contact st.contacts item.contact_id [.setDay3 today]).2,
        logs := st.logs ++
          [{ activity_type := "Follow-Up Sent",
             description := "Day 3" ++ " follow-up sent to " ++ item.full_name,
             opportunity_id := item.opportunity_id,
             contact_id := some item.contact_id }] }
  else if action = "responded" then
    { contacts := (update_contact st.contacts item.contact_id
        [.setResponseStatus "Responded"]).2,
      logs := st.logs ++
        [{ activity_type := "Response Received",
           description := item.full_name ++ " responded",
           opportunity_id := item.opportunity_id,
           contact_id := some item.contact_id }] }
  else if action = "no-response" then
    { contacts := (update_contact st.contacts item.contact_id
        [.setResponseStatus "No Response"]).2,
      logs := st.logs }
  else
    st

/-- Errors of the workflow engine (§7 of the spec). -/
inductive WorkflowError where
  | notFound
  | invalidStage
deriving DecidableEq, Repr

/-- Modelled from the spec: `calculate_next_action` lives in the absent
`modules/workflow.py`.  Per §4.1 it is a pure total function over the
non-terminal stages of the fixed vocabulary, returning a next-action
description together with a strictly positive day offset; invoking it on
the terminal stage (or an unknown label) is invalid input.  The concrete
texts and offsets are a faithful instantiation of that contract. -/
def calculate_next_action (stage : String) : Option (String × Int) :=
  if stage = "Prospect" then some ("Research company and identify contacts", 2)
  else if stage = "Warm Lead" then some ("Send outreach to primary contact", 2)
  else if stage = "Applied" then some ("Follow up on application", 5)
  else if stage = "Recruiter Screen" then some ("Send thank-you and prep for hiring manager", 2)
  else if stage = "HM Interview" then some ("Send thank-you note", 1)
  else if stage = "Loop" then some ("Send thank-you notes to the panel", 1)
  else if stage = "Offer Pending" then some ("Review offer details", 2)
  else none

/-- The "Applied"-or-later suffix of the stage vocabulary (§4.2 step 3). -/
def appliedOrLater (stage : String) : Bool :=
  (STAGE_ORDER.drop 2).contains stage

/-- The opportunity-side state touched by stage transitions. -/
structure WState where
  opps : List Opportunity
  logs : List LogEntry
deriving DecidableEq, Repr

/-- `get_opportunity` of the storage collaborator:
`SELECT * FROM opportunities WHERE id = ?`. -/
def get_opportunity (db : List Opportunity) (oid : Nat) : Option Opportunity :=
  db.find? (fun o => o.id == oid)

/-- The field rewrite a single `advance_stage` call applies to the targeted
opportunity row (§4.2 steps 2–5). -/
def advanceFields (today : Int) (new_stage : String) (o : Opportunity) : Opportunity :=
  let o1 := { o with stage := new_stage, updated_at := today }
  let o2 := if appliedOrLater new_stage ∧ o.date_applied = none
            then { o1 with date_applied := some today } else o1
  let o3 := if new_stage = "Closed"
            then { o2 with date_closed := some today } else o2
  match calculate_next_action new_stage with
  | some (txt, d) =>
      { o3 with next_action := some txt, next_action_date := some (today + d) }
  | none => o3

/-- Modelled from the spec: `advance_stage` lives in the absent
`modules/workflow.py`.  Per §4.2 it fails with `InvalidStage` when
`new_stage` is outside the fixed vocabulary and with `NotFound` when the
opportunity id does not exist; otherwise it sets the stage, stamps
`date_applied` on the first applied-or-later transition, always re-stamps
`date_closed` on a terminal transition, recomputes the next action for
non-terminal stages, persists, and appends exactly one Stage Change
activity-log entry embedding the new stage and the optional note. -/
def advance_stage (today : Int) (st : WState) (oid : Nat) (new_stage : String)
    (note : Option String) : Except WorkflowError WState :=
  if new_stage ∈ STAGE_ORDER then
    match get_opportunity st.opps oid with
    | none => .error .notFound
    | some _ =>
      .ok { opps := st.opps.map (fun o =>
              if o.id == oid then advanceFields today new_stage o else o),
            logs := st.logs ++
              [{ activity_type := "Stage Change",
                 description := "Stage advanced to: " ++ new_stage ++
                   (match note with
                    | some n => " — " ++ n
                    | none => ""),
                 opportunity_id := some oid,
                 contact_id := none }] }
  else .error .invalidStage

/-- The `advance` CLI command (`main.py`, lines 365–380): rejects a stage
outside `STAGE_ORDER` before calling `advance_stage`. -/
def advance (today : Int) (st : WState) (oid : Nat) (new_stage : String)
    (note : Option String) : Except WorkflowError WState :=
  if new_stage ∈ STAGE_ORDER then advance_stage today st oid new_stage note
  else .error .invalidStage

/-- The `advance_opp` web route (`web/routes.py`, lines 92–98): calls
`advance_stage` only when the posted `new_stage` form value is truthy —
an absent or empty value silently redirects with no change. -/
def advance_opp (today : Int) (st : WState) (oid : Nat)
    (new_stage : Option String) (note : Option String) :
    Except WorkflowError WState :=
  match new_stage with
  | some s => if s ≠ "" then advance_stage today st oid s note else .ok st
  | none => .ok st

/-- Modelled from the spec: `flag_stale_records` lives in the absent
`modules/workflow.py`.  Per §4.4 it returns, read-only, the opportunities
with `today − updated_at ≥ days_stale` whose stage is not terminal. -/
def flag_stale_records (today : Int) (days_stale : Int)
    (opps : List Opportunity) : List Opportunity :=
  opps.filter (fun o => days_stale ≤ today - o.updated_at ∧ o.stage ≠ "Closed")

/-- The `mark_response` web route (`web/routes.py`, lines 135–146): sets
`response_status` to the requested status and then unconditionally logs a
Response Received entry mentioning the status. -/
def mark_response (st : CState) (cid : Nat) (status : String) : CState :=
  let db := (update_contact st.contacts cid [.setResponseStatus status]).2
  let c := get_contact db cid
  { contacts := db,
    logs := st.logs ++
      [{ activity_type := "Response Received",
         description := "Response status updated to: " ++ status,
         opportunity_id := (c.map Contact.opportunity_id).join,
         contact_id := some cid }] }

/-! ### Concrete sample rows used by witnesses and counterexamples -/

/-- A pending contact with Day-0 outreach on day 0 and no follow-ups sent. -/
def pendingContact : Contact :=
  { id := 1, opportunity_id := some 10, full_name := "Test Contact",
    contact_type := some "Recruiter", outreach_day0 := some 0,
    outreach_day3 := none, outreach_day7 := none, response_status := "Pending" }

/-- A contact state holding just `pendingContact` and an empty log. -/
def pendingCState : CState := { contacts := [pendingContact], logs := [] }

/-- An opportunity in the initial stage, last updated on day 90. -/
def staleOpp : Opportunity :=
  { id := 1, company := "Old Co", role_title := "Analytics Manager",
    stage := "Prospect", date_applied := none, date_closed := none,
    next_action := none, next_action_date := none, updated_at := 90 }

/-- An opportunity in the initial stage, last updated on day 100. -/
def freshOpp : Opportunity :=
  { id := 2, company := "New Co", role_title := "Data Manager",
    stage := "Applied", date_applied := some 99, date_closed := none,
    next_action := none, next_action_date := none, updated_at := 100 }

/-- An opportunity state holding just `staleOpp` and an empty log. -/
def oneOppState : WState := { opps := [staleOpp], logs := [] }

/-! ### Helper lemmas -/

/-- A single SET clause never touches the row id. -/
theorem applyUpdate_id (c : Contact) (u : ContactUpdate) :
    (applyUpdate c u).id = c.id := by
  cases u <;> rfl

/-- A list of SET clauses never touches the row id. -/
theorem applyUpdates_id (us : List ContactUpdate) (c : Contact) :
    (applyUpdates us c).id = c.id := by
  induction us generalizing c with
  | nil => rfl
  | cons u us ih =>
    rw [applyUpdates, List.foldl_cons, ← applyUpdates, ih, applyUpdate_id]

/-- `find?` by id commutes with an id-preserving rewrite of the matched rows. -/
theorem find?_map_ite_contact (db : List Contact) (cid : Nat)
    (g : Contact → Contact) (hg : ∀ c, (g c).id = c.id) :
    (db.map (fun c => if c.id == cid then g c else c)).find? (fun c => c.id == cid) =
      (db.find? (fun c => c.id == cid)).map g := by
  induction db with
  | nil => rfl
  | cons c db ih =>
    by_cases hc : c.id = cid
    · have hb : (c.id == cid) = true := beq_iff_eq.mpr hc
      have hgb : ((g c).id == cid) = true := beq_iff_eq.mpr (by rw [hg c]; exact hc)
      have h1 : (if c.id == cid then g c else c) = g c := by simp [hb]
      rw [List.map_cons, h1,
        @List.find?_cons_of_pos Contact (fun x => x.id == cid) (g c) _ hgb,
        @List.find?_cons_of_pos Contact (fun x => x.id == cid) c db hb]
      rfl
    · have hb : (c.id == cid) = false := beq_eq_false_iff_ne.mpr hc
      have h1 : (if c.id == cid then g c else c) = c := by simp [hb]
      rw [List.map_cons, h1,
        @List.find?_cons_of_neg Contact (fun x => x.id == cid) c _ (by simp [hb]),
        @List.find?_cons_of_neg Contact (fun x => x.id == cid) c db (by simp [hb]), ih]

/-- Reading back the targeted row after a non-empty `update_contact` yields
the row with the SET clauses applied. -/
theorem get_contact_update_contact (db : List Contact) (cid : Nat)
    (us : List ContactUpdate) (h : us ≠ []) :
    get_contact (update_contact db cid us).2 cid =
      (get_contact db cid).map (applyUpdates us) := by
  have hne : us.isEmpty = false := by
    cases us with
    | nil => exact absurd rfl h
    | cons u us => rfl
  have hdb : (update_contact db cid us).2 =
      db.map (fun c => if c.id == cid then applyUpdates us c else c) := by
    simp [update_contact, hne]
  rw [hdb]
  exact find?_map_ite_contact db cid (applyUpdates us) (applyUpdates_id us)

/-- `advanceFields` never touches the row id. -/
theorem advanceFields_id (t : Int) (s : String) (o : Opportunity) :
    (advanceFields t s o).id = o.id := by
  simp only [advanceFields]
  split <;> split <;> split <;> rfl

/-- `find?` by id commutes with an id-preserving rewrite of the matched
opportunity rows. -/
theorem find?_map_ite_opp (db : List Opportunity) (oid : Nat)
    (g : Opportunity → Opportunity) (hg : ∀ o, (g o).id = o.id) :
    (db.map (fun o => if o.id == oid then g o else o)).find? (fun o => o.id == oid) =
      (db.find? (fun o => o.id == oid)).map g := by
  induction db with
  | nil => rfl
  | cons o db ih =>
    by_cases ho : o.id = oid
    · have hb : (o.id == oid) = true := beq_iff_eq.mpr ho
      have hgb : ((g o).id == oid) = true := beq_iff_eq.mpr (by rw [hg o]; exact ho)
      have h1 : (if o.id == oid then g o else o) = g o := by simp [hb]
      rw [List.map_cons, h1,
        @List.find?_cons_of_pos Opportunity (fun x => x.id == oid) (g o) _ hgb,
        @List.find?_cons_of_pos Opportunity (fun x => x.id == oid) o db hb]
      rfl
    · have hb : (o.id == oid) = false := beq_eq_false_iff_ne.mpr ho
      have h1 : (if o.id == oid then g o else o) = o := by simp [hb]
      rw [List.map_cons, h1,
        @List.find?_cons_of_neg Opportunity (fun x => x.id == oid) o _ (by simp [hb]),
        @List.find?_cons_of_neg Opportunity (fun x => x.id == oid) o db (by simp [hb]), ih]

/-- A successful `advance_stage` call returns the state whose opportunity
table is rewritten by `advanceFields` at the targeted id and whose log has
exactly the one new Stage Change entry. -/
theorem advance_stage_ok (today : Int) (st : WState) (oid : Nat)
    (new_stage : String) (note : Option String) (opp : Opportunity)
    (hs : new_stage ∈ STAGE_ORDER) (hopp : get_opportunity st.opps oid = some opp) :
    advance_stage today st oid new_stage note =
      .ok { opps := st.opps.map (fun o =>
              if o.id == oid then advanceFields today new_stage o else o),
            logs := st.logs ++
              [{ activity_type := "Stage Change",
                 description := "Stage advanced to: " ++ new_stage ++
                   (match note with
                    | some n => " — " ++ n
                    | none => ""),
                 opportunity_id := some oid,
                 contact_id := none }] } := by
  simp [advance_stage, hs, hopp]

/-- Reading back the targeted opportunity after a successful
`advance_stage` yields the row with `advanceFields` applied. -/
theorem get_opportunity_after_advance (today : Int) (st : WState) (oid : Nat)
    (new_stage : String) (note : Option String) (opp : Opportunity) (st' : WState)
    (hopp : get_opportunity st.opps oid = some opp)
    (hok : advance_stage today st oid new_stage note = .ok st') :
    get_opportunity st'.opps oid = some (advanceFields today new_stage opp) := by
  by_cases hs : new_stage ∈ STAGE_ORDER
  · rw [advance_stage_ok today st oid new_stage note opp hs hopp] at hok
    cases hok
    show (st.opps.map (fun o => if o.id == oid then advanceFields today new_stage o else o)).find?
        (fun o => o.id == oid) = _
    rw [find?_map_ite_opp st.opps oid (advanceFields today new_stage)
      (advanceFields_id today new_stage)]
    rw [show st.opps.find? (fun o => o.id == oid) = some opp from hopp]
    rfl
  · simp [advance_stage, hs] at hok

/-- Decomposition of a produced follow-up item: the generating contact is
pending with Day 0 set, and the reason records which branch fired. -/
theorem followup_item_eq_some (today : Int) (c : Contact) (it : FollowupItem)
    (h : followup_item today c = some it) :
    it.contact_id = c.id ∧ c.response_status = "Pending" ∧
    ∃ d0, c.outreach_day0 = some d0 ∧
      ((7 ≤ today - d0 ∧ c.outreach_day7 = none ∧
          it.followup_reason = "Day 7 follow-up due") ∨
       (¬(7 ≤ today - d0 ∧ c.outreach_day7 = none) ∧
          3 ≤ today - d0 ∧ c.outreach_day3 = none ∧
          it.followup_reason = "Day 3 follow-up due")) := by
  unfold followup_item at h
  by_cases hp : c.response_status = "Pending"
  · rw [if_pos hp] at h
    cases hd0 : c.outreach_day0 with
    | none => rw [hd0] at h; exact absurd h (by simp)
    | some d0 =>
      rw [hd0] at h
      dsimp only at h
      by_cases h7 : 7 ≤ today - d0 ∧ c.outreach_day7 = none
      · rw [if_pos h7] at h
        cases h
        exact ⟨rfl, hp, d0, rfl, Or.inl ⟨h7.1, h7.2, rfl⟩⟩
      · rw [if_neg h7] at h
        by_cases h3 : 3 ≤ today - d0 ∧ c.outreach_day3 = none
        · rw [if_pos h3] at h
          cases h
          exact ⟨rfl, hp, d0, rfl, Or.inr ⟨h7, h3.1, h3.2, rfl⟩⟩
        · rw [if_neg h3] at h; exact absurd h (by simp)
  · rw [if_neg hp] at h; exact absurd h (by simp)

/-- A pending contact whose Day-7 follow-up is due produces the Day-7 item. -/
theorem followup_item_day7 (today : Int) (c : Contact) (d0 : Int)
    (hp : c.response_status = "Pending") (hd0 : c.outreach_day0 = some d0)
    (h7 : 7 ≤ today - d0) (hu7 : c.outreach_day7 = none) :
    followup_item today c =
      some { contact_id := c.id, opportunity_id := c.opportunity_id,
             full_name := c.full_name, contact_type := c.contact_type,
             outreach_day0 := some d0, followup_reason := "Day 7 follow-up due" } := by
  unfold followup_item
  rw [if_pos hp, hd0]
  dsimp only
  rw [if_pos ⟨h7, hu7⟩]

/-- A pending contact that is not Day-7 due but is Day-3 due produces the
Day-3 item. -/
theorem followup_item_day3 (today : Int) (c : Contact) (d0 : Int)
    (hp : c.response_status = "Pending") (hd0 : c.outreach_day0 = some d0)
    (hn7 : ¬(7 ≤ today - d0 ∧ c.outreach_day7 = none))
    (h3 : 3 ≤ today - d0) (hu3 : c.outreach_day3 = none) :
    followup_item today c =
      some { contact_id := c.id, opportunity_id := c.opportunity_id,
             full_name := c.full_name, contact_type := c.contact_type,
             outreach_day0 := some d0, followup_reason := "Day 3 follow-up due" } := by
  unfold followup_item
  rw [if_pos hp, hd0]
  dsimp only
  rw [if_neg hn7, if_pos ⟨h3, hu3⟩]

/-- C10: calling `update_contact` with no field updates returns 0 and
performs no database write — for every contact id, every field of every
contact row is unchanged. -/
theorem update_contact_empty_noop (db : List Contact) (cid : Nat) :
    update_contact db cid [] = (0, db) := rfl

/-- C7: for every stage in the fixed vocabulary except the terminal stage
"Closed", `calculate_next_action` returns a non-empty action string and a
strictly positive day offset (being a pure function, it is deterministic). -/
theorem calculate_next_action_spec (s : String)
    (hs : s ∈ STAGE_ORDER) (hterm : s ≠ "Closed") :
    ∃ t d, calculate_next_action s = some (t, d) ∧ t ≠ "" ∧ 0 < d := by
  fin_cases hs
  all_goals first
    | exact absurd rfl hterm
    | exact ⟨_, _, rfl, by decide, by decide⟩

/-- Witness for C7 at the initial stage "Prospect". -/
theorem calculate_next_action_spec_witness :
    "Prospect" ∈ STAGE_ORDER ∧ "Prospect" ≠ "Closed" ∧
      ∃ t d, calculate_next_action "Prospect" = some (t, d) ∧ t ≠ "" ∧ 0 < d :=
  ⟨by decide, by decide, calculate_next_action_spec "Prospect" (by decide) (by decide)⟩

/-- C9: `flag_stale_records days_stale` returns exactly the opportunities
with `today − updated_at ≥ days_stale` whose stage is not the terminal
"Closed" (the operation is a pure read); in particular with threshold 7 it
returns an opportunity last updated 10 days ago and omits one updated
today. -/
theorem flag_stale_records_spec :
    (∀ (today days_stale : Int) (opps : List Opportunity) (o : Opportunity),
        o ∈ flag_stale_records today days_stale opps ↔
          o ∈ opps ∧ days_stale ≤ today - o.updated_at ∧ o.stage ≠ "Closed") ∧
    staleOpp ∈ flag_stale_records 100 7 [staleOpp, freshOpp] ∧
    freshOpp ∉ flag_stale_records 100 7 [staleOpp, freshOpp] := by
  refine ⟨?_, ?_, ?_⟩
  · intro today ds opps o
    simp [flag_stale_records, List.mem_filter]
  · decide
  · decide

/-- C3 counterexample: resolving a contact as "No Response" through the
web mark-response route appends an activity-log entry (of type Response
Received), so the no-response resolution does not leave the activity log
unchanged on every exposed path. -/
theorem mark_response_no_response_appends_log :
    (mark_response pendingCState 1 "No Response").logs ≠ [] ∧
    (mark_response pendingCState 1 "No Response").logs =
      [{ activity_type := "Response Received",
         description := "Response status updated to: No Response",
         opportunity_id := some 10, contact_id := some 1 }] := by
  exact ⟨by decide, by decide⟩

/-- C3 (amended): in the CLI follow-up resolution a "sent" mark appends
exactly one Follow-Up Sent entry, "responded" appends exactly one Response
Received entry, "no-response" appends no entry and only rewrites the
contact's response status, and "skip" changes nothing; the web
mark-response route, however, appends exactly one Response Received entry
for every status, including "No Response". -/
theorem followup_resolution_logs (today : Int) (st : CState) (item : FollowupItem) :
    (∃ e, (follow_up_resolve today st item "sent").logs = st.logs ++ [e] ∧
        e.activity_type = "Follow-Up Sent") ∧
    (∃ e, (follow_up_resolve today st item "responded").logs = st.logs ++ [e] ∧
        e.activity_type = "Response Received") ∧
    (follow_up_resolve today st item "no-response").logs = st.logs ∧
    (follow_up_resolve today st item "no-response").contacts =
      (update_contact st.contacts item.contact_id [.setResponseStatus "No Response"]).2 ∧
    follow_up_resolve today st item "skip" = st ∧
    (∀ (cid : Nat) (status : String), ∃ e,
        (mark_response st cid status).logs = st.logs ++ [e] ∧
        e.activity_type = "Response Received") := by
  refine ⟨?_, ?_, ?_, ?_, ?_, ?_⟩
  · unfold follow_up_resolve
    rw [if_pos rfl]
    dsimp only
    split
    · exact ⟨_, rfl, rfl⟩
    · exact ⟨_, rfl, rfl⟩
  · unfold follow_up_resolve
    rw [if_neg (by decide), if_pos rfl]
    exact ⟨_, rfl, rfl⟩
  · unfold follow_up_resolve
    rw [if_neg (by decide), if_neg (by decide), if_pos rfl]
  · unfold follow_up_resolve
    rw [if_neg (by decide), if_neg (by decide), if_pos rfl]
  · unfold follow_up_resolve
    rw [if_neg (by decide), if_neg (by decide), if_neg (by decide)]
  · intro cid status
    unfold mark_response
    exact ⟨_, rfl, rfl⟩

/-- C1: `get_followup_queue` returns an item for a contact iff its
response status is Pending, Day 0 is set, and with `days_since = today −
day0` either `days_since ≥ 7` with Day 7 unsent (labelled a Day 7
follow-up, regardless of Day 3) or else `days_since ≥ 3` with Day 3 unsent
(labelled a Day 3 follow-up); consequently non-Pending contacts and
contacts whose Day 0 is today never appear. -/
theorem get_followup_queue_spec (today : Int) (cs : List Contact) (c : Contact)
    (hc : c ∈ cs) (hnd : (cs.map Contact.id).Nodup) :
    ((∃ it, it ∈ get_followup_queue today cs ∧ it.contact_id = c.id) ↔
      (c.response_status = "Pending" ∧ ∃ d0, c.outreach_day0 = some d0 ∧
        ((7 ≤ today - d0 ∧ c.outreach_day7 = none) ∨
         (3 ≤ today - d0 ∧ c.outreach_day3 = none)))) ∧
    (∀ it, it ∈ get_followup_queue today cs → it.contact_id = c.id →
      ((it.followup_reason = "Day 7 follow-up due" ↔
          ∃ d0, c.outreach_day0 = some d0 ∧ 7 ≤ today - d0 ∧ c.outreach_day7 = none) ∧
       (it.followup_reason = "Day 3 follow-up due" ↔
          ∃ d0, c.outreach_day0 = some d0 ∧ ¬(7 ≤ today - d0 ∧ c.outreach_day7 = none) ∧
            3 ≤ today - d0 ∧ c.outreach_day3 = none))) := by
  have key : ∀ it, it ∈ get_followup_queue today cs → it.contact_id = c.id →
      followup_item today c = some it := by
    intro it hit hid
    obtain ⟨c', hc', hf⟩ := List.mem_filterMap.mp hit
    obtain ⟨h1, -, -⟩ := followup_item_eq_some today c' it hf
    have hcc : c' = c :=
      List.inj_on_of_nodup_map hnd hc' hc (by rw [← h1, hid])
    rwa [hcc] at hf
  constructor
  · constructor
    · rintro ⟨it, hit, hid⟩
      have hf := key it hit hid
      obtain ⟨-, hp, d0, hd0, hbr⟩ := followup_item_eq_some today c it hf
      refine ⟨hp, d0, hd0, ?_⟩
      rcases hbr with ⟨h7, hu7, -⟩ | ⟨-, h3, hu3, -⟩
      · exact Or.inl ⟨h7, hu7⟩
      · exact Or.inr ⟨h3, hu3⟩
    · rintro ⟨hp, d0, hd0, hbr⟩
      by_cases h7 : 7 ≤ today - d0 ∧ c.outreach_day7 = none
      · exact ⟨_, List.mem_filterMap.mpr
          ⟨c, hc, followup_item_day7 today c d0 hp hd0 h7.1 h7.2⟩, rfl⟩
      · rcases hbr with h | ⟨h3, hu3⟩
        · exact absurd h h7
        · exact ⟨_, List.mem_filterMap.mpr
            ⟨c, hc, followup_item_day3 today c d0 hp hd0 h7 h3 hu3⟩, rfl⟩
  · intro it hit hid
    have hf := key it hit hid
    obtain ⟨-, hp, d0, hd0, hbr⟩ := followup_item_eq_some today c it hf
    rcases hbr with ⟨h7, hu7, hr⟩ | ⟨hn7, h3, hu3, hr⟩
    · refine ⟨⟨fun _ => ⟨d0, hd0, h7, hu7⟩, fun _ => hr⟩, ?_, ?_⟩
      · intro hr3
        rw [hr] at hr3
        exact absurd hr3 (by decide)
      · rintro ⟨d0', hd0', hn7', -, -⟩
        rw [hd0] at hd0'
        cases hd0'
        exact absurd ⟨h7, hu7⟩ hn7'
    · refine ⟨⟨?_, ?_⟩, fun _ => ⟨d0, hd0, hn7, h3, hu3⟩, fun _ => hr⟩
      · intro hr7
        rw [hr] at hr7
        exact absurd hr7 (by decide)
      · rintro ⟨d0', hd0', h7', hu7'⟩
        rw [hd0] at hd0'
        cases hd0'
        exact absurd ⟨h7', hu7'⟩ hn7

/-- Witness for C1: a pending contact whose Day 0 was 3 days ago is in the
queue. -/
theorem get_followup_queue_spec_witness :
    pendingContact ∈ [pendingContact] ∧
    (([pendingContact].map Contact.id).Nodup) ∧
    (∃ it, it ∈ get_followup_queue 3 [pendingContact] ∧
        it.contact_id = pendingContact.id) := by
  refine ⟨by decide, by decide, ?_⟩
  exact ((get_followup_queue_spec 3 [pendingContact] pendingContact
    (by decide) (by decide)).1).mpr ⟨rfl, 0, rfl, Or.inr ⟨by decide, rfl⟩⟩

/-- The queue item matching `pendingContact`, as produced on day 3. -/
def pendingItem : FollowupItem :=
  { contact_id := 1, opportunity_id := some 10, full_name := "Test Contact",
    contact_type := some "Recruiter", outreach_day0 := some 0,
    followup_reason := "Day 3 follow-up due" }

/-- C2: marking a due follow-up as sent chooses the stamped day field by
the write-time threshold `days_since ≥ 6`: it sets `outreach_day7` to
today when at least 6 days have elapsed since Day 0 and `outreach_day3`
otherwise; hence at `days_since` exactly 6 the stamped field is Day 7 even
though the read-time `followup_reason` labels the contact Day 3 due. -/
theorem follow_up_sent_threshold (today : Int) (st : CState) (item : FollowupItem)
    (d0 : Int) (c : Contact)
    (hd0 : item.outreach_day0 = some d0)
    (hc : get_contact st.contacts item.contact_id = some c) :
    (6 ≤ today - d0 →
      get_contact (follow_up_resolve today st item "sent").contacts item.contact_id =
        some { c with outreach_day7 := some today }) ∧
    (today - d0 < 6 →
      get_contact (follow_up_resolve today st item "sent").contacts item.contact_id =
        some { c with outreach_day3 := some today }) ∧
    (today - d0 = 6 → c.response_status = "Pending" → c.outreach_day0 = some d0 →
      c.outreach_day3 = none → c.outreach_day7 = none →
      ((∃ it, followup_item today c = some it ∧
          it.followup_reason = "Day 3 follow-up due") ∧
       get_contact (follow_up_resolve today st item "sent").contacts item.contact_id =
         some { c with outreach_day7 := some today })) := by
  have hc7 : 6 ≤ today - d0 →
      get_contact (follow_up_resolve today st item "sent").contacts item.contact_id =
        some { c with outreach_day7 := some today } := by
    intro h6
    have hcon : (follow_up_resolve today st item "sent").contacts =
        (update_contact st.contacts item.contact_id [.setDay7 today]).2 := by
      unfold follow_up_resolve
      rw [if_pos rfl, hd0]
      dsimp only
      rw [if_pos h6]
    rw [hcon, get_contact_update_contact st.contacts item.contact_id _
      (List.cons_ne_nil _ _), hc]
    rfl
  have hc3 : today - d0 < 6 →
      get_contact (follow_up_resolve today st item "sent").contacts item.contact_id =
        some { c with outreach_day3 := some today } := by
    intro h6
    have hcon : (follow_up_resolve today st item "sent").contacts =
        (update_contact st.contacts item.contact_id [.setDay3 today]).2 := by
      unfold follow_up_resolve
      rw [if_pos rfl, hd0]
      dsimp only
      rw [if_neg (not_le.mpr h6)]
    rw [hcon, get_contact_update_contact st.contacts item.contact_id _
      (List.cons_ne_nil _ _), hc]
    rfl
  refine ⟨hc7, hc3, ?_⟩
  intro h6eq hp hcd0 hu3 hu7
  refine ⟨⟨_, followup_item_day3 today c d0 hp hcd0 ?_ ?_ hu3, rfl⟩, hc7 (by omega)⟩
  · rintro ⟨h7, -⟩
    omega
  · omega

/-- Witness for C2: on day 6 after Day 0, the queue labels the contact Day
3 due but the sent mark stamps `outreach_day7`. -/
theorem follow_up_sent_threshold_witness :
    pendingItem.outreach_day0 = some 0 ∧
    get_contact pendingCState.contacts pendingItem.contact_id = some pendingContact ∧
    (6 : Int) - 0 = 6 ∧
    ((∃ it, followup_item 6 pendingContact = some it ∧
        it.followup_reason = "Day 3 follow-up due") ∧
     get_contact (follow_up_resolve 6 pendingCState pendingItem "sent").contacts
        pendingItem.contact_id =
       some { pendingContact with outreach_day7 := some 6 }) := by
  refine ⟨rfl, by decide, by decide, ?_⟩
  exact (follow_up_sent_threshold 6 pendingCState pendingItem 0 pendingContact
    rfl (by decide)).2.2 (by decide) rfl rfl rfl rfl

/-- Field-level description of `advanceFields`: stage is overwritten,
`date_applied` is stamped only on the first applied-or-later transition,
and `date_closed` is (re)stamped exactly on terminal transitions. -/
theorem advanceFields_spec (t : Int) (s : String) (o : Opportunity) :
    (advanceFields t s o).stage = s ∧
    (advanceFields t s o).date_applied =
      (if appliedOrLater s ∧ o.date_applied = none then some t else o.date_applied) ∧
    (advanceFields t s o).date_closed =
      (if s = "Closed" then some t else o.date_closed) := by
  by_cases h2 : s = "Closed"
  · subst h2
    have hna : calculate_next_action "Closed" = none := rfl
    by_cases h1 : appliedOrLater "Closed" ∧ o.date_applied = none <;>
      simp [advanceFields, h1, hna]
  · cases hna : calculate_next_action s with
    | none =>
      by_cases h1 : appliedOrLater s ∧ o.date_applied = none <;>
        simp [advanceFields, h1, h2, hna]
    | some p =>
      obtain ⟨txt, d⟩ := p
      by_cases h1 : appliedOrLater s ∧ o.date_applied = none <;>
        simp [advanceFields, h1, h2, hna]

/-- C4: every `advance_stage` call into the terminal stage "Closed" sets
the opportunity's `date_closed` to the call date, and a second terminal
transition on a later day re-stamps it to that later day. -/
theorem advance_to_closed_sets_date (today : Int) (st : WState) (oid : Nat)
    (opp : Opportunity) (note : Option String)
    (hopp : get_opportunity st.opps oid = some opp) :
    (∃ st', advance_stage today st oid "Closed" note = .ok st' ∧
       ∃ o', get_opportunity st'.opps oid = some o' ∧ o'.date_closed = some today) ∧
    (∀ st' later, advance_stage today st oid "Closed" note = .ok st' →
       ∃ st'' o'', advance_stage later st' oid "Closed" note = .ok st'' ∧
         get_opportunity st''.opps oid = some o'' ∧ o''.date_closed = some later) := by
  have hClosed : "Closed" ∈ STAGE_ORDER := by decide
  have hdc : ∀ (d : Int) (o : Opportunity),
      (advanceFields d "Closed" o).date_closed = some d := by
    intro d o
    rw [(advanceFields_spec d "Closed" o).2.2, if_pos rfl]
  constructor
  · refine ⟨_, advance_stage_ok today st oid "Closed" note opp hClosed hopp, ?_⟩
    refine ⟨advanceFields today "Closed" opp, ?_, hdc today opp⟩
    exact get_opportunity_after_advance today st oid "Closed" note opp _ hopp
      (advance_stage_ok today st oid "Closed" note opp hClosed hopp)
  · intro st' later hok
    have hrow : get_opportunity st'.opps oid = some (advanceFields today "Closed" opp) :=
      get_opportunity_after_advance today st oid "Closed" note opp st' hopp hok
    refine ⟨_, advanceFields later "Closed" (advanceFields today "Closed" opp),
      advance_stage_ok later st' oid "Closed" note _ hClosed hrow, ?_, hdc later _⟩
    exact get_opportunity_after_advance later st' oid "Closed" note _ _ hrow
      (advance_stage_ok later st' oid "Closed" note _ hClosed hrow)

/-- Witness for C4 on a one-opportunity store, advancing to Closed on day 5. -/
theorem advance_to_closed_sets_date_witness :
    get_opportunity oneOppState.opps 1 = some staleOpp ∧
    (∃ st', advance_stage 5 oneOppState 1 "Closed" none = .ok st' ∧
       ∃ o', get_opportunity st'.opps 1 = some o' ∧ o'.date_closed = some 5) := by
  exact ⟨by decide,
    (advance_to_closed_sets_date 5 oneOppState 1 staleOpp none (by decide)).1⟩

/-- C5: `advance_stage` is idempotent on `date_applied`: the first
transition into an applied-or-later stage stamps it with the call date,
and once set no call with any valid stage changes or clears it. -/
theorem advance_stage_date_applied (today : Int) (st : WState) (oid : Nat)
    (opp : Opportunity) (s : String) (note : Option String) (st' : WState)
    (hopp : get_opportunity st.opps oid = some opp)
    (hok : advance_stage today st oid s note = .ok st') :
    (opp.date_applied = none → appliedOrLater s →
       ∃ o', get_opportunity st'.opps oid = some o' ∧ o'.date_applied = some today) ∧
    (∀ d, opp.date_applied = some d →
       ∃ o', get_opportunity st'.opps oid = some o' ∧ o'.date_applied = some d) := by
  have hrow : get_opportunity st'.opps oid = some (advanceFields today s opp) :=
    get_opportunity_after_advance today st oid s note opp st' hopp hok
  constructor
  · intro hnone happ
    refine ⟨_, hrow, ?_⟩
    rw [(advanceFields_spec today s opp).2.1, if_pos ⟨happ, hnone⟩]
  · intro d hd
    refine ⟨_, hrow, ?_⟩
    rw [(advanceFields_spec today s opp).2.1, if_neg, hd]
    rintro ⟨-, hcontra⟩
    rw [hd] at hcontra
    exact Option.some_ne_none d hcontra

/-- Witness for C5: the first advance to "Applied" on day 7 stamps
`date_applied` with 7. -/
theorem advance_stage_date_applied_witness :
    ∃ st', advance_stage 7 oneOppState 1 "Applied" none = .ok st' ∧
      ∃ o', get_opportunity st'.opps 1 = some o' ∧ o'.date_applied = some 7 := by
  refine ⟨_, rfl, ?_⟩
  exact (advance_stage_date_applied 7 oneOppState 1 staleOpp "Applied" none _
    (by decide) rfl).1 rfl (by decide)

/-- C6: every successful `advance_stage` call appends exactly one
activity-log entry; it has type Stage Change, its description contains the
new stage name, and when a note is given the description contains the note
as well.  (A failing call produces no new state at all, so it appends
nothing.) -/
theorem advance_stage_logs_once (today : Int) (st : WState) (oid : Nat)
    (s : String) (note : Option String) (st' : WState)
    (hok : advance_stage today st oid s note = .ok st') :
    ∃ e, st'.logs = st.logs ++ [e] ∧ e.activity_type = "Stage Change" ∧
      (∃ p q, e.description = p ++ s ++ q) ∧
      (∀ n, note = some n → ∃ p q, e.description = p ++ n ++ q) := by
  by_cases hs : s ∈ STAGE_ORDER
  · cases hopp : get_opportunity st.opps oid with
    | none =>
      rw [advance_stage.eq_def, if_pos hs, hopp] at hok
      exact absurd hok (by simp)
    | some opp =>
      rw [advance_stage_ok today st oid s note opp hs hopp] at hok
      cases hok
      refine ⟨_, rfl, rfl, ⟨"Stage advanced to: ", _, rfl⟩, ?_⟩
      rintro n rfl
      refine ⟨("Stage advanced to: " ++ s) ++ " — ", "", ?_⟩
      dsimp only
      simp only [String.append_empty, String.append_assoc]
  · rw [advance_stage.eq_def, if_neg hs] at hok
    exact absurd hok (by simp)

/-- Witness for C6: a successful advance to "Applied" with a note appends
one Stage Change entry. -/
theorem advance_stage_logs_once_witness :
    ∃ st', advance_stage 0 oneOppState 1 "Applied" (some "Submitted") = .ok st' ∧
      ∃ e, st'.logs = oneOppState.logs ++ [e] ∧ e.activity_type = "Stage Change" := by
  refine ⟨_, rfl, ?_⟩
  obtain ⟨e, h1, h2, -, -⟩ :=
    advance_stage_logs_once 0 oneOppState 1 "Applied" (some "Submitted") _ rfl
  exact ⟨e, h1, h2⟩

/-- C8 counterexample: posting an empty stage string to the web advance
route neither fails with InvalidStage nor changes anything — it silently
succeeds, although "" is not in the fixed vocabulary. -/
theorem advance_opp_empty_stage_no_error :
    ¬("" ∈ STAGE_ORDER) ∧
    advance_opp 0 oneOppState 1 (some "") none = .ok oneOppState := by
  exact ⟨by decide, rfl⟩

/-- C8 (amended): for every opportunity id and every stage outside
`STAGE_ORDER`, the CLI `advance` command, `advance_stage` itself, and the
web route with a non-empty stage all fail with InvalidStage without
producing any modified state; the web route with an empty (or absent)
stage value instead silently returns the store unchanged. -/
theorem invalid_stage_rejected (today : Int) (st : WState) (oid : Nat)
    (s : String) (note : Option String) (hs : s ∉ STAGE_ORDER) :
    advance today st oid s note = .error .invalidStage ∧
    advance_stage today st oid s note = .error .invalidStage ∧
    (s ≠ "" → advance_opp today st oid (some s) note = .error .invalidStage) ∧
    advance_opp today st oid (some "") note = .ok st ∧
    advance_opp today st oid none note = .ok st := by
  have h2 : advance_stage today st oid s note = .error .invalidStage := by
    rw [advance_stage.eq_def, if_neg hs]
  refine ⟨?_, h2, ?_, ?_, rfl⟩
  · rw [advance.eq_def, if_neg hs]
  · intro hne
    rw [advance_opp.eq_def]
    dsimp only
    rw [if_pos hne]
    exact h2
  · rfl

/-- Witness for C8 at the unknown stage "Bogus". -/
theorem invalid_stage_rejected_witness :
    ¬("Bogus" ∈ STAGE_ORDER) ∧
    advance 0 oneOppState 1 "Bogus" none = .error .invalidStage ∧
    advance_opp 0 oneOppState 1 (some "Bogus") none = .error .invalidStage := by
  have h := invalid_stage_rejected 0 oneOppState 1 "Bogus" none (by decide)
  exact ⟨by decide, h.1, h.2.2.1 (by decide)⟩
